import Mathlib

/-!
Verification of the flash-sale reservation engine
(`src/backend/src/services/status.ts`).

The Redis-backed store is embedded shallowly:

* key `sale:stock` holds a string; `Number(stockStr || "0")` in the code maps
  an absent key to `0`, a non-numeric string to `NaN`, and an integer string
  to its value.  `StockCell` models the three cases and `stockNum` models the
  JS coercion (`none` standing for a non-finite result).
* keys `user:<id>` hold the per-buyer receipt (the committed orderId); they
  are modelled as a function from key strings to `Option String`.
* list `sale:orders` (written with LPUSH, i.e. prepend) is a Lean list.

`attemptOnce` is one iteration of the WATCH / window check / duplicate check /
stock check / MULTI(DECR, SET, LPUSH) / EXEC body of `attemptPurchase`,
executed against the store state the attempt observes, assuming EXEC is not
rejected.  `attemptLoop` is the retry loop: `stores i` is the store state
attempt `i` observes and `conflict i` tells whether attempt `i`'s EXEC is
rejected by a concurrent writer (ioredis returns `null` from `exec()` then).
The backoff sleep has no effect on results and is not modelled.
-/

namespace FlashSale

/-- Value held by the Redis key `sale:stock`: the key may be absent, hold a
non-numeric string (so `Number(...)` yields `NaN`), or hold an integer. -/
inductive StockCell where
  | absent : StockCell
  | invalid : StockCell
  | val : Int → StockCell
deriving DecidableEq, Repr

/-- `Number(stockStr || "0")` from `attemptPurchase`: an absent key coerces to
`0`, a non-numeric string to `NaN` (modelled `none`, which fails the
`Number.isFinite` test), an integer string to its value. -/
def stockNum : StockCell → Option Int
  | .absent => some 0
  | .invalid => none
  | .val n => n

/-- `Number(await redis.get("sale:stock")) || 0` from `getStatus`: both an
absent key and a `NaN` coercion collapse to `0`. -/
def statusStock : StockCell → Int
  | .absent => 0
  | .invalid => 0
  | .val n => n

/-- One entry of the `sale:orders` list:
`JSON.stringify({ userId, ts: now, orderId })`. -/
structure OrderEntry where
  userId : String
  ts : Int
  orderId : String
deriving DecidableEq, Repr

/-- The shared Redis state touched by the engine: the stock counter, the
`user:<id>` receipt slots (`kv`, indexed by full key string), and the
`sale:orders` list (head = most recently pushed). -/
structure Store where
  stock : StockCell
  kv : String → Option String
  orders : List OrderEntry

/-- The `sale:config` hash, as written by `bootstrapSale` from
`loadSaleConfig` (all numeric fields valid). -/
structure SaleConfig where
  productId : String
  productDescription : String
  startsAt : Int
  endsAt : Int
  initialStock : Int
deriving DecidableEq, Repr

/-- The Redis key `user:<userId>` holding a buyer's receipt. -/
def userKey (userId : String) : String := "user:" ++ userId

/-- `` `${now}:${userId}` `` — the orderId generated inside `attemptPurchase`. -/
def orderIdOf (now : Int) (userId : String) : String :=
  toString now ++ ":" ++ userId

/-- JS truthiness of a nullable string (`if (existing)`, `!!orderId`):
`null` and the empty string are falsy. -/
def truthy : Option String → Bool
  | none => false
  | some s => !(s == "")

/-- Result union of `attemptPurchase`: codes 0 (purchased), 1 (already
purchased), 2 (sold out), 3 (window closed), 4 (busy). -/
inductive AttemptResult where
  | purchased : String → AttemptResult
  | alreadyPurchased : String → AttemptResult
  | soldOut : AttemptResult
  | windowClosed : AttemptResult
  | busy : AttemptResult
deriving DecidableEq, Repr

/-- One iteration of the retry loop of `attemptPurchase`, against store `s`,
assuming the MULTI/EXEC (when reached) is not rejected: window check, then
duplicate check (`if (existing)`), then stock check
(`!Number.isFinite(stock) || stock <= 0`), then the transaction
DECR `sale:stock` / SET `user:<id>` / LPUSH `sale:orders`, then the defensive
negative-counter rollback (INCR + DEL; the pushed order entry stays). -/
def attemptOnce (cfg : SaleConfig) (userId : String) (now : Int) (s : Store) :
    AttemptResult × Store :=
  if now < cfg.startsAt ∨ now > cfg.endsAt then
    (.windowClosed, s)
  else if truthy (s.kv (userKey userId)) then
    (.alreadyPurchased ((s.kv (userKey userId)).getD ""), s)
  else
    match stockNum s.stock with
    | none => (.soldOut, s)
    | some stock =>
      if stock ≤ 0 then (.soldOut, s)
      else
        let orderId := orderIdOf now userId
        let newStock := stock - 1
        if newStock < 0 then
          (.soldOut,
            { stock := .val stock,
              kv := fun k => if k = userKey userId then none else s.kv k,
              orders := ⟨userId, now, orderId⟩ :: s.orders })
        else
          (.purchased orderId,
            { stock := .val newStock,
              kv := fun k => if k = userKey userId then some orderId else s.kv k,
              orders := ⟨userId, now, orderId⟩ :: s.orders })

/-- Whether an attempt gets past the window, duplicate and stock checks and
reaches the MULTI/EXEC — the only point at which a conflicting concurrent
writer can force a retry. -/
def passesChecks (cfg : SaleConfig) (userId : String) (now : Int) (s : Store) :
    Bool :=
  if now < cfg.startsAt ∨ now > cfg.endsAt then false
  else if truthy (s.kv (userKey userId)) then false
  else
    match stockNum s.stock with
    | none => false
    | some stock => decide (0 < stock)

/-- `const MAX_RETRIES = Number(process.env.PURCHASE_MAX_RETRIES || 5)`. -/
def MAX_RETRIES : Nat := 5

/-- The `for (let tries = 0; tries < MAX_RETRIES; tries++)` loop of
`attemptPurchase`.  `stores tries` is the store state attempt `tries`
observes; `conflict tries` tells whether its EXEC returns `null` (a watched
key changed), in which case the loop backs off and retries; exhaustion
returns code 4 (busy).  Note the loop reuses the `now`, `startsAt`, `endsAt`
values fixed at the call boundary. -/
def attemptLoop (cfg : SaleConfig) (userId : String) (now : Int)
    (stores : Nat → Store) (conflict : Nat → Bool) :
    Nat → Nat → AttemptResult
  | 0, _ => .busy
  | fuel + 1, tries =>
    if passesChecks cfg userId now (stores tries) && conflict tries then
      attemptLoop cfg userId now stores conflict fuel (tries + 1)
    else
      (attemptOnce cfg userId now (stores tries)).1

/-- `attemptPurchase({userId, now, startsAt, endsAt})`: run the retry loop
from attempt 0 with `MAX_RETRIES` attempts available. -/
def attemptPurchase (cfg : SaleConfig) (userId : String) (now : Int)
    (stores : Nat → Store) (conflict : Nat → Bool) : AttemptResult :=
  attemptLoop cfg userId now stores conflict MAX_RETRIES 0

/-- Modelled from the spec: the retry loop as §4.2 step 2 describes it, in
which the window check of attempt `i` "is re-evaluated per attempt, not
cached", i.e. evaluated against the then-current time `times i` instead of a
time fixed before the loop.  Identical to `attemptLoop` otherwise. -/
def attemptLoopSpec (cfg : SaleConfig) (userId : String) (times : Nat → Int)
    (stores : Nat → Store) (conflict : Nat → Bool) :
    Nat → Nat → AttemptResult
  | 0, _ => .busy
  | fuel + 1, tries =>
    if passesChecks cfg userId (times tries) (stores tries) && conflict tries then
      attemptLoopSpec cfg userId times stores conflict fuel (tries + 1)
    else
      (attemptOnce cfg userId (times tries) (stores tries)).1

/-- Modelled from the spec: `attemptPurchase` with the per-attempt
re-evaluated clock of §4.2. -/
def attemptPurchaseSpec (cfg : SaleConfig) (userId : String)
    (times : Nat → Int) (stores : Nat → Store) (conflict : Nat → Bool) :
    AttemptResult :=
  attemptLoopSpec cfg userId times stores conflict MAX_RETRIES 0

/-- Serialized run of one `reserve` call per buyer, in order: each call's
single attempt commits without contention (the WATCH/EXEC serializes the
concurrent calls in some order; this is that order). -/
def runAll (cfg : SaleConfig) (now : Int) :
    List String → Store → List AttemptResult × Store
  | [], s => ([], s)
  | b :: rest, s =>
    let r := attemptOnce cfg b now s
    let t := runAll cfg now rest r.2
    (r.1 :: t.1, t.2)

def isPurchased : AttemptResult → Bool
  | .purchased _ => true
  | _ => false

def isSoldOut : AttemptResult → Bool
  | .soldOut => true
  | _ => false

/-- A fresh sale store: `sale:stock` set to the configured stock, no
receipts, empty order log. -/
def initStore (S : Nat) : Store :=
  { stock := .val (S : Int), kv := fun _ => none, orders := [] }

/-- The sale phase union of `getStatus`. -/
inductive SalePhase where
  | upcoming : SalePhase
  | active : SalePhase
  | ended : SalePhase
  | sold_out : SalePhase
deriving DecidableEq, Repr

/-- Return record of `getStatus`. -/
structure StatusResult where
  status : SalePhase
  startsAt : Int
  endsAt : Int
  stock : Int
  sold : Int
  productId : String
  productDescription : String
deriving DecidableEq, Repr

/-- `getStatus()`: reads `sale:config` and `sale:stock`, coerces the stock
(`Number(...) || 0`), derives `sold = initialStock - stock` and the phase
(`active` unless overridden by `upcoming`, then `ended`, then `sold_out`). -/
def getStatus (cfg : SaleConfig) (cell : StockCell) (now : Int) :
    StatusResult :=
  let stock := statusStock cell
  let sold := cfg.initialStock - stock
  let status : SalePhase :=
    if now < cfg.startsAt then .upcoming
    else if now > cfg.endsAt then .ended
    else if stock ≤ 0 then .sold_out
    else .active
  { status := status, startsAt := cfg.startsAt, endsAt := cfg.endsAt,
    stock := stock, sold := sold, productId := cfg.productId,
    productDescription := cfg.productDescription }

/-- Modelled from the spec: the phase by first-match precedence
`upcoming` > `ended` > `sold_out` > `active`. -/
def specPhase (startsAt endsAt stock now : Int) : SalePhase :=
  if now < startsAt then .upcoming
  else if now > endsAt then .ended
  else if stock ≤ 0 then .sold_out
  else .active

/-- Body of `getPurchase` (GET /api/purchase/:userId): `200 {purchased,
orderId}`, or `none` for the `422 {error: "invalid_user"}` rejection. -/
structure LookupResult where
  purchased : Bool
  orderId : Option String
deriving DecidableEq, Repr

/-- JS `String.prototype.trim()`: strip leading and trailing whitespace. -/
def jsTrim (s : String) : String :=
  ⟨((s.data.dropWhile Char.isWhitespace).reverse.dropWhile
      Char.isWhitespace).reverse⟩

/-- `getPurchase`: validate the id (`trim().length < 3` → 422), read
`user:<trimmed id>`, report `{purchased: !!orderId, orderId: orderId ?? null}`. -/
def getPurchase (s : Store) (userId : String) : Option LookupResult :=
  if (jsTrim userId).length < 3 then none
  else
    let orderId := s.kv (userKey (jsTrim userId))
    some { purchased := truthy orderId, orderId := orderId }

/-- The operations of the engine that a caller can interleave; `reserveOp`
is the only one that writes. -/
inductive Op where
  | reserveOp : String → Int → Op
  | lookupOp : String → Op
  | statusOp : Int → Op

/-- Effect of one operation on the store: `reserve` runs the purchase
transaction; `lookup` (`getPurchase`) and `getStatus` are pure reads. -/
def applyOp (cfg : SaleConfig) (s : Store) : Op → Store
  | .reserveOp u n => (attemptOnce cfg u n s).2
  | .lookupOp _ => s
  | .statusOp _ => s

/-- Run a sequence of operations left to right. -/
def runOps (cfg : SaleConfig) : Store → List Op → Store
  | s, [] => s
  | s, op :: ops => runOps cfg (applyOp cfg s op) ops

/-- `attemptPurchase` result codes as dispatched by `doPurchase`. -/
def resCode : AttemptResult → Nat
  | .purchased _ => 0
  | .alreadyPurchased _ => 1
  | .soldOut => 2
  | .windowClosed => 3
  | .busy => 4

/-- `r.orderId` as `doPurchase` reads it off the result. -/
def resOrderId : AttemptResult → Option String
  | .purchased o => some o
  | .alreadyPurchased o => some o
  | _ => none

/-- HTTP responses `doPurchase` can produce from an `attemptPurchase`
result. -/
inductive PurchaseResponse where
  | purchasedOk : Option String → PurchaseResponse
  | already409 : Option String → PurchaseResponse
  | soldOut410 : PurchaseResponse
  | notActive403 : PurchaseResponse
  | busy503 : PurchaseResponse
  | unknown500 : PurchaseResponse
deriving DecidableEq, Repr

/-- The `if (r.code === 0) ... return rep.code(500).send({error: "unknown"})`
dispatch chain at the end of `doPurchase`. -/
def dispatchPurchase (r : AttemptResult) : PurchaseResponse :=
  if resCode r = 0 then .purchasedOk (resOrderId r)
  else if resCode r = 1 then .already409 (resOrderId r)
  else if resCode r = 2 then .soldOut410
  else if resCode r = 3 then .notActive403
  else if resCode r = 4 then .busy503
  else .unknown500

/-- Sale open from 0 to 10, one unit of stock: scenario in which the sale
closes between two attempts of one call. -/
def cfgMidClose : SaleConfig := ⟨"PRD-001", "d", 0, 10, 1⟩

/-- Per-attempt clock for that scenario: attempt 0 runs at time 5 (window
open), every later attempt runs at time 20 (window closed). -/
def timesMidClose : Nat → Int := fun t => if t == 0 then 5 else 20

/-- Attempt 0's EXEC is rejected by a concurrent writer; later attempts
commit. -/
def conflictFirst : Nat → Bool := fun t => t == 0

/-! ## Helper lemmas -/

theorem attemptOnce_of_window (cfg : SaleConfig) (u : String) (now : Int)
    (s : Store) (h : now < cfg.startsAt ∨ now > cfg.endsAt) :
    attemptOnce cfg u now s = (.windowClosed, s) := by
  simp [attemptOnce, h]

theorem attemptOnce_of_receipt (cfg : SaleConfig) (u : String) (now : Int)
    (s : Store) (hw : ¬(now < cfg.startsAt ∨ now > cfg.endsAt))
    (e : String) (he : s.kv (userKey u) = some e) (hne : e ≠ "") :
    attemptOnce cfg u now s = (.alreadyPurchased e, s) := by
  simp [attemptOnce, hw, he, truthy, hne]

theorem attemptOnce_of_nostock (cfg : SaleConfig) (u : String) (now : Int)
    (s : Store) (hw : ¬(now < cfg.startsAt ∨ now > cfg.endsAt))
    (hr : s.kv (userKey u) = none)
    (hs : ∀ n, stockNum s.stock = some n → n ≤ 0) :
    attemptOnce cfg u now s = (.soldOut, s) := by
  simp only [attemptOnce, if_neg hw, hr, truthy, Bool.false_eq_true,
    if_false]
  cases h : stockNum s.stock with
  | none => simp
  | some n => simp [hs n h]

theorem attemptOnce_of_success (cfg : SaleConfig) (u : String) (now : Int)
    (s : Store) (hw : ¬(now < cfg.startsAt ∨ now > cfg.endsAt))
    (hr : s.kv (userKey u) = none) (n : Int) (hs : s.stock = .val n)
    (hn : 1 ≤ n) :
    attemptOnce cfg u now s =
      (.purchased (orderIdOf now u),
        { stock := .val (n - 1),
          kv := fun k => if k = userKey u then some (orderIdOf now u)
                         else s.kv k,
          orders := ⟨u, now, orderIdOf now u⟩ :: s.orders }) := by
  have h1 : ¬(n ≤ 0) := by omega
  have h2 : ¬(n - 1 < 0) := by omega
  simp [attemptOnce, hw, hr, truthy, hs, stockNum, h1, h2]

theorem passesChecks_false_of_window (cfg : SaleConfig) (u : String)
    (now : Int) (s : Store) (h : now < cfg.startsAt ∨ now > cfg.endsAt) :
    passesChecks cfg u now s = false := by
  simp [passesChecks, h]

theorem attemptPurchase_first (cfg : SaleConfig) (u : String) (now : Int)
    (stores : Nat → Store) (conflict : Nat → Bool)
    (h : passesChecks cfg u now (stores 0) = false ∨ conflict 0 = false) :
    attemptPurchase cfg u now stores conflict =
      (attemptOnce cfg u now (stores 0)).1 := by
  have hand : (passesChecks cfg u now (stores 0) && conflict 0) = false := by
    rcases h with h | h <;> simp [h]
  simp [attemptPurchase, MAX_RETRIES, attemptLoop, hand]

theorem attemptOnce_fst_ne_windowClosed (cfg : SaleConfig) (u : String)
    (now : Int) (s : Store) (h : ¬(now < cfg.startsAt ∨ now > cfg.endsAt)) :
    (attemptOnce cfg u now s).1 ≠ .windowClosed := by
  simp only [attemptOnce, if_neg h]
  split
  · simp
  · cases hs : stockNum s.stock with
    | none => simp
    | some n =>
      simp only
      split
      · simp
      · split <;> simp

theorem attemptLoop_ne_windowClosed (cfg : SaleConfig) (u : String)
    (now : Int) (stores : Nat → Store) (conflict : Nat → Bool)
    (h : ¬(now < cfg.startsAt ∨ now > cfg.endsAt)) :
    ∀ fuel tries,
      attemptLoop cfg u now stores conflict fuel tries ≠ .windowClosed := by
  intro fuel
  induction fuel with
  | zero => intro tries; simp [attemptLoop]
  | succ m ih =>
    intro tries
    simp only [attemptLoop]
    split
    · exact ih (tries + 1)
    · exact attemptOnce_fst_ne_windowClosed cfg u now (stores tries) h

/-! ## Claim theorems -/

/-- C3 — Window enforcement: whenever `now < startsAt` or `now > endsAt`, a
`reserve` call returns `WindowClosed` (code 3) whatever the stock counter or
the buyer's receipt slot holds, and the store — stock, receipts, order log —
is left unchanged; the full retry loop returns the same for any contention
pattern. -/
theorem window_enforcement (cfg : SaleConfig) (u : String) (now : Int)
    (s : Store) (h : now < cfg.startsAt ∨ now > cfg.endsAt) :
    attemptOnce cfg u now s = (.windowClosed, s) ∧
    ∀ (stores : Nat → Store) (conflict : Nat → Bool),
      attemptPurchase cfg u now stores conflict = .windowClosed := by
  refine ⟨attemptOnce_of_window cfg u now s h, fun stores conflict => ?_⟩
  rw [attemptPurchase_first cfg u now stores conflict
    (Or.inl (passesChecks_false_of_window cfg u now (stores 0) h))]
  rw [attemptOnce_of_window cfg u now (stores 0) h]

/-- C3 witness: before the window opens, reserving leaves the store alone and
reports `WindowClosed`. -/
theorem window_enforcement_witness :
    ((5 : Int) < (10 : Int) ∨ (5 : Int) > (20 : Int)) ∧
    (attemptOnce ⟨"PRD-001", "d", 10, 20, 7⟩ "abc" 5 (initStore 7) =
        (.windowClosed, initStore 7) ∧
      ∀ (stores : Nat → Store) (conflict : Nat → Bool),
        attemptPurchase ⟨"PRD-001", "d", 10, 20, 7⟩ "abc" 5 stores conflict =
          .windowClosed) :=
  ⟨by decide,
    window_enforcement ⟨"PRD-001", "d", 10, 20, 7⟩ "abc" 5 (initStore 7)
      (by decide)⟩

/-- C5 — Duplicate rejection: if the buyer's `user:<id>` slot already holds
an order identifier (a non-empty string), a `reserve` inside the window
returns `AlreadyReserved` carrying exactly that identifier, and the store —
stock, receipts, order log — is unchanged; the full retry loop returns the
same for any contention pattern over that store. -/
theorem duplicate_rejection (cfg : SaleConfig) (u : String) (now : Int)
    (s : Store) (hw : cfg.startsAt ≤ now ∧ now ≤ cfg.endsAt) (e : String)
    (he : s.kv (userKey u) = some e) (hne : e ≠ "") :
    attemptOnce cfg u now s = (.alreadyPurchased e, s) ∧
    ∀ conflict : Nat → Bool,
      attemptPurchase cfg u now (fun _ => s) conflict =
        .alreadyPurchased e := by
  have hw' : ¬(now < cfg.startsAt ∨ now > cfg.endsAt) := by omega
  have h1 := attemptOnce_of_receipt cfg u now s hw' e he hne
  refine ⟨h1, fun conflict => ?_⟩
  have hp : passesChecks cfg u now s = false := by
    simp [passesChecks, hw', he, truthy, hne]
  rw [attemptPurchase_first cfg u now (fun _ => s) conflict (Or.inl hp), h1]

/-- C5 witness: a buyer holding receipt `1:abc` gets `AlreadyReserved` with
that same id and the store is untouched. -/
theorem duplicate_rejection_witness :
    ((10 : Int) ≤ (15 : Int) ∧ (15 : Int) ≤ (20 : Int)) ∧
    ({ stock := .val 7,
       kv := fun k => if k = userKey "abc" then some "1:abc" else none,
       orders := [] } : Store).kv (userKey "abc") = some "1:abc" ∧
    ("1:abc" : String) ≠ "" ∧
    (attemptOnce ⟨"PRD-001", "d", 10, 20, 7⟩ "abc" 15
        { stock := .val 7,
          kv := fun k => if k = userKey "abc" then some "1:abc" else none,
          orders := [] } =
        (.alreadyPurchased "1:abc",
          { stock := .val 7,
            kv := fun k => if k = userKey "abc" then some "1:abc" else none,
            orders := [] }) ∧
      ∀ conflict : Nat → Bool,
        attemptPurchase ⟨"PRD-001", "d", 10, 20, 7⟩ "abc" 15
            (fun _ =>
              { stock := .val 7,
                kv := fun k => if k = userKey "abc" then some "1:abc"
                               else none,
                orders := [] }) conflict =
          .alreadyPurchased "1:abc") :=
  ⟨by decide, by simp, by decide,
    duplicate_rejection ⟨"PRD-001", "d", 10, 20, 7⟩ "abc" 15
      { stock := .val 7,
        kv := fun k => if k = userKey "abc" then some "1:abc" else none,
        orders := [] }
      (by decide) "1:abc" (by simp) (by decide)⟩

/-- C6 — Sold-out rejection: a buyer with no receipt, inside the window, gets
`SoldOut` whenever the stock counter is absent (coerced to 0), holds a
non-numeric value (fails `Number.isFinite`), or is ≤ 0 — and the store is
left unchanged; the full retry loop returns the same for any contention
pattern over that store. -/
theorem soldout_rejection (cfg : SaleConfig) (u : String) (now : Int)
    (s : Store) (hw : cfg.startsAt ≤ now ∧ now ≤ cfg.endsAt)
    (hr : s.kv (userKey u) = none)
    (hs : ∀ n, stockNum s.stock = some n → n ≤ 0) :
    attemptOnce cfg u now s = (.soldOut, s) ∧
    ∀ conflict : Nat → Bool,
      attemptPurchase cfg u now (fun _ => s) conflict = .soldOut := by
  have hw' : ¬(now < cfg.startsAt ∨ now > cfg.endsAt) := by omega
  have h1 := attemptOnce_of_nostock cfg u now s hw' hr hs
  refine ⟨h1, fun conflict => ?_⟩
  have hp : passesChecks cfg u now s = false := by
    simp only [passesChecks, if_neg hw', hr, truthy, Bool.false_eq_true,
      if_false]
    cases h : stockNum s.stock with
    | none => simp
    | some n => simp [hs n h]
  rw [attemptPurchase_first cfg u now (fun _ => s) conflict (Or.inl hp), h1]

/-- C6 witness: with the stock key absent, a fresh buyer inside the window
gets `SoldOut` and the store is untouched. -/
theorem soldout_rejection_witness :
    ((10 : Int) ≤ (15 : Int) ∧ (15 : Int) ≤ (20 : Int)) ∧
    ({ stock := .absent, kv := fun _ => none, orders := [] } : Store).kv
        (userKey "abc") = none ∧
    (∀ n, stockNum (StockCell.absent) = some n → n ≤ 0) ∧
    (attemptOnce ⟨"PRD-001", "d", 10, 20, 7⟩ "abc" 15
        { stock := .absent, kv := fun _ => none, orders := [] } =
        (.soldOut, { stock := .absent, kv := fun _ => none, orders := [] }) ∧
      ∀ conflict : Nat → Bool,
        attemptPurchase ⟨"PRD-001", "d", 10, 20, 7⟩ "abc" 15
            (fun _ => { stock := .absent, kv := fun _ => none, orders := [] })
            conflict = .soldOut) :=
  ⟨by decide, rfl, by intro n h; simp [stockNum] at h; omega,
    soldout_rejection ⟨"PRD-001", "d", 10, 20, 7⟩ "abc" 15
      { stock := .absent, kv := fun _ => none, orders := [] } (by decide) rfl
      (by intro n h; simp [stockNum] at h; omega)⟩

theorem orderIdOf_ne_empty (now : Int) (u : String) : orderIdOf now u ≠ "" := by
  intro h
  have hlen : (orderIdOf now u).length = 0 := by rw [h]; rfl
  simp only [orderIdOf, String.length_append] at hlen
  have : (":" : String).length = 1 := rfl
  omega

theorem attemptOnce_purchased_inv (cfg : SaleConfig) (u : String) (now : Int)
    (s : Store) (oid : String) (s' : Store)
    (h : attemptOnce cfg u now s = (.purchased oid, s')) :
    oid = orderIdOf now u ∧
    s' = { stock := .val (((stockNum s.stock).getD 0) - 1),
           kv := fun k => if k = userKey u then some (orderIdOf now u)
                          else s.kv k,
           orders := ⟨u, now, orderIdOf now u⟩ :: s.orders } := by
  simp only [attemptOnce] at h
  split at h
  · simp [Prod.ext_iff] at h
  · split at h
    · simp [Prod.ext_iff] at h
    · split at h
      · simp [Prod.ext_iff] at h
      · rename_i hs
        split at h
        · simp [Prod.ext_iff] at h
        · split at h
          · simp [Prod.ext_iff] at h
          · simp only [Prod.mk.injEq, AttemptResult.purchased.injEq] at h
            refine ⟨h.1.symm, ?_⟩
            rw [← h.2, hs]
            rfl

/-- C2 — Successful reservation: a buyer with no receipt, inside the window,
with integer stock `n ≥ 1`, gets `Reserved` with
`orderId = <timestamp> ++ ":" ++ <buyerId>`, and in the same atomic commit the
stock counter drops by exactly 1, the buyer's receipt slot is set to that
orderId, and one entry is pushed onto the order log; with no contention the
full retry loop returns that same `Reserved(orderId)`. -/
theorem reserve_success_postcondition (cfg : SaleConfig) (u : String)
    (now : Int) (s : Store) (hw : cfg.startsAt ≤ now ∧ now ≤ cfg.endsAt)
    (hr : s.kv (userKey u) = none) (n : Int) (hs : s.stock = .val n)
    (hn : 1 ≤ n) :
    attemptOnce cfg u now s =
      (.purchased (toString now ++ ":" ++ u),
        { stock := .val (n - 1),
          kv := fun k => if k = userKey u
                         then some (toString now ++ ":" ++ u)
                         else s.kv k,
          orders := ⟨u, now, toString now ++ ":" ++ u⟩ :: s.orders }) ∧
    attemptPurchase cfg u now (fun _ => s) (fun _ => false) =
      .purchased (toString now ++ ":" ++ u) := by
  have hw' : ¬(now < cfg.startsAt ∨ now > cfg.endsAt) := by omega
  have h1 := attemptOnce_of_success cfg u now s hw' hr n hs hn
  have horder : orderIdOf now u = toString now ++ ":" ++ u := rfl
  rw [horder] at h1
  refine ⟨h1, ?_⟩
  rw [attemptPurchase_first cfg u now (fun _ => s) (fun _ => false)
    (Or.inr rfl), h1]

/-- C2 witness: buyer `abc` at time 15 against stock 7 receives order
`15:abc`, stock becomes 6, the receipt and order-log writes land. -/
theorem reserve_success_postcondition_witness :
    ((10 : Int) ≤ (15 : Int) ∧ (15 : Int) ≤ (20 : Int)) ∧
    (initStore 7).kv (userKey "abc") = none ∧
    (initStore 7).stock = .val 7 ∧ (1 : Int) ≤ 7 ∧
    (attemptOnce ⟨"PRD-001", "d", 10, 20, 7⟩ "abc" 15 (initStore 7) =
      (.purchased (toString (15 : Int) ++ ":" ++ "abc"),
        { stock := .val (7 - 1),
          kv := fun k => if k = userKey "abc"
                         then some (toString (15 : Int) ++ ":" ++ "abc")
                         else (initStore 7).kv k,
          orders := [⟨"abc", 15, toString (15 : Int) ++ ":" ++ "abc"⟩] }) ∧
     attemptPurchase ⟨"PRD-001", "d", 10, 20, 7⟩ "abc" 15
        (fun _ => initStore 7) (fun _ => false) =
      .purchased (toString (15 : Int) ++ ":" ++ "abc")) :=
  ⟨by decide, rfl, rfl, by decide,
    reserve_success_postcondition ⟨"PRD-001", "d", 10, 20, 7⟩ "abc" 15
      (initStore 7) (by decide) rfl 7 rfl (by decide)⟩

/-- C7 — Status resolver: `getStatus` computes the phase by the first-match
precedence upcoming (`now < startsAt`) > ended (`now > endsAt`) > sold_out
(`stock ≤ 0`) > active, and reports `sold = initialStock − stock`; it is a
pure function of the configuration, the stock cell and the clock. -/
theorem getStatus_characterization (cfg : SaleConfig) (cell : StockCell)
    (now : Int) :
    (getStatus cfg cell now).status =
      specPhase cfg.startsAt cfg.endsAt (statusStock cell) now ∧
    ((getStatus cfg cell now).status = .upcoming ↔ now < cfg.startsAt) ∧
    ((getStatus cfg cell now).status = .ended ↔
      cfg.startsAt ≤ now ∧ cfg.endsAt < now) ∧
    ((getStatus cfg cell now).status = .sold_out ↔
      cfg.startsAt ≤ now ∧ now ≤ cfg.endsAt ∧ statusStock cell ≤ 0) ∧
    ((getStatus cfg cell now).status = .active ↔
      cfg.startsAt ≤ now ∧ now ≤ cfg.endsAt ∧ 0 < statusStock cell) ∧
    (getStatus cfg cell now).stock = statusStock cell ∧
    (getStatus cfg cell now).sold =
      cfg.initialStock - (getStatus cfg cell now).stock := by
  simp only [getStatus, specPhase]
  split_ifs with h1 h2 h3 <;> simp_all

/-- C10 — Every `attemptPurchase` outcome carries code 0, 1, 2, 3 or 4, so
the `500 {error: "unknown"}` fallback at the end of `doPurchase`'s dispatch
chain is unreachable when `attemptPurchase` returns normally. -/
theorem dispatch_never_unknown (cfg : SaleConfig) (u : String) (now : Int)
    (stores : Nat → Store) (conflict : Nat → Bool) :
    resCode (attemptPurchase cfg u now stores conflict) ≤ 4 ∧
    dispatchPurchase (attemptPurchase cfg u now stores conflict) ≠
      .unknown500 := by
  cases h : attemptPurchase cfg u now stores conflict <;>
    simp [dispatchPurchase, resCode, resOrderId]

theorem userKey_inj {a b : String} (h : userKey a = userKey b) : a = b := by
  have h2 := congrArg String.data h
  simp only [userKey, String.data_append] at h2
  exact String.ext (List.append_cancel_left h2)

/-- C8 — Lookup idempotence: `getPurchase` is a pure read of the receipt
slot, so (a) while no receipt exists for the (trimmed, length ≥ 3) id, every
call returns `{purchased: false, orderId: null}`, and (b) after a `reserve`
that returned `Reserved(orderId)`, every call returns
`{purchased: true, orderId}` with that very identifier; it takes no clock or
configuration input, so it is independent of the sale window. -/
theorem lookup_idempotent :
    (∀ (s : Store) (u : String), 3 ≤ (jsTrim u).length →
      s.kv (userKey (jsTrim u)) = none →
      getPurchase s u = some ⟨false, none⟩) ∧
    (∀ (cfg : SaleConfig) (now : Int) (u : String) (s s' : Store)
        (oid : String), jsTrim u = u → 3 ≤ u.length →
      attemptOnce cfg u now s = (.purchased oid, s') →
      getPurchase s' u = some ⟨true, some oid⟩) := by
  constructor
  · intro s u hlen hnone
    have h3 : ¬((jsTrim u).length < 3) := by omega
    simp [getPurchase, h3, hnone, truthy]
  · intro cfg now u s s' oid htrim hlen hres
    obtain ⟨hoid, hs'⟩ := attemptOnce_purchased_inv cfg u now s oid s' hres
    have h3 : ¬((jsTrim u).length < 3) := by rw [htrim]; omega
    have hkv : s'.kv (userKey (jsTrim u)) = some oid := by
      rw [htrim, hs', hoid]
      simp
    have hne : oid ≠ "" := hoid ▸ orderIdOf_ne_empty now u
    simp [getPurchase, h3, hkv, truthy, hne]

/-- C8 witness: for buyer `abc`, lookup reports no purchase on a fresh store,
and reports `{purchased: true, orderId: "15:abc"}` on the store produced by a
successful reserve at time 15. -/
theorem lookup_idempotent_witness :
    ((3 : Nat) ≤ (jsTrim "abc").length ∧
      (initStore 1).kv (userKey (jsTrim "abc")) = none ∧
      getPurchase (initStore 1) "abc" = some ⟨false, none⟩) ∧
    (jsTrim "abc" = "abc" ∧
      attemptOnce ⟨"PRD-001", "d", 10, 20, 1⟩ "abc" 15 (initStore 1) =
        (.purchased "15:abc",
          { stock := .val 0,
            kv := fun k => if k = userKey "abc" then some "15:abc" else none,
            orders := [⟨"abc", 15, "15:abc"⟩] }) ∧
      getPurchase
          { stock := .val 0,
            kv := fun k => if k = userKey "abc" then some "15:abc" else none,
            orders := [⟨"abc", 15, "15:abc"⟩] } "abc" =
        some ⟨true, some "15:abc"⟩) :=
  ⟨⟨by decide, rfl,
      lookup_idempotent.1 (initStore 1) "abc" (by decide) rfl⟩,
    ⟨by decide, rfl,
      lookup_idempotent.2 ⟨"PRD-001", "d", 10, 20, 1⟩ 15 "abc" (initStore 1)
        { stock := .val 0,
          kv := fun k => if k = userKey "abc" then some "15:abc" else none,
          orders := [⟨"abc", 15, "15:abc"⟩] } "15:abc" (by decide)
        (by decide) rfl⟩⟩

theorem attemptOnce_preserves_receipt (cfg : SaleConfig) (u : String)
    (now : Int) (s : Store) (k : String) (v : String) (hk : s.kv k = some v)
    (hv : v ≠ "") : ((attemptOnce cfg u now s).2).kv k = some v := by
  by_cases hku : k = userKey u
  · subst hku
    by_cases hw : now < cfg.startsAt ∨ now > cfg.endsAt
    · rw [attemptOnce_of_window cfg u now s hw]; exact hk
    · rw [attemptOnce_of_receipt cfg u now s hw v hk hv]; exact hk
  · simp only [attemptOnce]
    split
    · exact hk
    · split
      · exact hk
      · split
        · exact hk
        · split
          · exact hk
          · split <;> simp [hku, hk]

/-- C9 — Receipt permanence: for any interleaving of `reserve`, `lookup` and
status reads, a receipt slot that holds an order identifier (a non-empty
string, as every committed reservation writes) keeps that exact value
through every subsequent operation — no engine operation deletes or
overwrites it. -/
theorem receipt_permanence (cfg : SaleConfig) (s : Store) (ops : List Op)
    (k : String) (v : String) (hk : s.kv k = some v) (hv : v ≠ "") :
    (runOps cfg s ops).kv k = some v := by
  induction ops generalizing s with
  | nil => exact hk
  | cons op rest ih =>
    cases op with
    | reserveOp u n =>
      exact ih _ (attemptOnce_preserves_receipt cfg u n s k v hk hv)
    | lookupOp u => exact ih _ hk
    | statusOp n => exact ih _ hk

/-- C9 witness: buyer `abc`'s receipt `1:abc` survives a duplicate reserve by
`abc`, a reserve by another buyer, a lookup and a status read. -/
theorem receipt_permanence_witness :
    ({ stock := .val 5,
       kv := fun x => if x = userKey "abc" then some "1:abc" else none,
       orders := [] } : Store).kv (userKey "abc") = some "1:abc" ∧
    ("1:abc" : String) ≠ "" ∧
    (runOps ⟨"PRD-001", "d", 0, 100, 5⟩
        { stock := .val 5,
          kv := fun x => if x = userKey "abc" then some "1:abc" else none,
          orders := [] }
        [.reserveOp "abc" 2, .reserveOp "bcd" 3, .lookupOp "abc",
          .statusOp 4]).kv (userKey "abc") = some "1:abc" :=
  ⟨by simp, by decide,
    receipt_permanence ⟨"PRD-001", "d", 0, 100, 5⟩
      { stock := .val 5,
        kv := fun x => if x = userKey "abc" then some "1:abc" else none,
        orders := [] }
      [.reserveOp "abc" 2, .reserveOp "bcd" 3, .lookupOp "abc", .statusOp 4]
      (userKey "abc") "1:abc" (by simp) (by decide)⟩

/-- C4 counterexample — the claim that a window change between two attempts
of one call changes the later attempt's window check is false: with the sale
open at call entry (time 5) and closed from attempt 1 on (time 20), and
attempt 0's commit lost to contention, the code still commits the purchase
on attempt 1, whereas the per-attempt-clock loop the spec describes returns
`WindowClosed` there. -/
theorem window_recheck_counterexample :
    attemptPurchase cfgMidClose "abc" 5 (fun _ => initStore 1)
        conflictFirst = .purchased "5:abc" ∧
    attemptPurchaseSpec cfgMidClose "abc" timesMidClose
        (fun _ => initStore 1) conflictFirst = .windowClosed := by
  constructor <;> decide

/-- C4 amended — the window check is executed on every retry attempt, but
against the `now`, `startsAt`, `endsAt` values captured once in `doPurchase`
before the loop, so its outcome is the same on every attempt of one call:
the call returns `WindowClosed` exactly when the window condition already
failed at call entry, whatever the per-attempt store states and contention
pattern. -/
theorem window_check_fixed_at_entry (cfg : SaleConfig) (u : String)
    (now : Int) (stores : Nat → Store) (conflict : Nat → Bool) :
    attemptPurchase cfg u now stores conflict = .windowClosed ↔
      (now < cfg.startsAt ∨ now > cfg.endsAt) := by
  constructor
  · intro h
    by_contra hw
    exact attemptLoop_ne_windowClosed cfg u now stores conflict hw
      MAX_RETRIES 0 h
  · intro h
    rw [attemptPurchase_first cfg u now stores conflict
      (Or.inl (passesChecks_false_of_window cfg u now (stores 0) h))]
    rw [attemptOnce_of_window cfg u now (stores 0) h]

/-- C4 amended witness: at a time past `endsAt` the call (with contention on
every attempt) returns `WindowClosed`, and the window condition indeed holds
at entry. -/
theorem window_check_fixed_at_entry_witness :
    attemptPurchase cfgMidClose "abc" 20 (fun _ => initStore 1)
        (fun _ => true) = .windowClosed ∧
    ((20 : Int) < cfgMidClose.startsAt ∨ (20 : Int) > cfgMidClose.endsAt) :=
  ⟨(window_check_fixed_at_entry cfgMidClose "abc" 20 (fun _ => initStore 1)
      (fun _ => true)).mpr (by decide), by decide⟩

theorem runAll_stats (cfg : SaleConfig) (now : Int)
    (hw : cfg.startsAt ≤ now ∧ now ≤ cfg.endsAt) :
    ∀ (buyers : List String) (s : Store) (k : Nat), buyers.Nodup →
      s.stock = .val (k : Int) →
      (∀ b ∈ buyers, s.kv (userKey b) = none) →
      (runAll cfg now buyers s).1.length = buyers.length ∧
      ((runAll cfg now buyers s).1.filter isPurchased).length =
        min k buyers.length ∧
      ((runAll cfg now buyers s).1.filter isSoldOut).length =
        buyers.length - min k buyers.length ∧
      (∀ r ∈ (runAll cfg now buyers s).1,
        isPurchased r = true ∨ r = .soldOut) ∧
      (runAll cfg now buyers s).2.stock =
        .val ((k : Int) - (min k buyers.length : Nat)) := by
  have hw' : ¬(now < cfg.startsAt ∨ now > cfg.endsAt) := by omega
  intro buyers
  induction buyers with
  | nil =>
    intro s k _ hs _
    refine ⟨rfl, ?_, ?_, ?_, ?_⟩ <;> simp [runAll, hs]
  | cons b rest ih =>
    intro s k hnd hs hfresh
    have hb : s.kv (userKey b) = none := hfresh b (List.mem_cons_self b rest)
    rcases Nat.eq_zero_or_pos k with hk0 | hkpos
    · subst hk0
      have hstep : attemptOnce cfg b now s = (.soldOut, s) := by
        apply attemptOnce_of_nostock cfg b now s hw' hb
        intro n h
        rw [hs] at h
        simp [stockNum] at h
        omega
      obtain ⟨l1, l2, l3, l4, l5⟩ := ih s 0 (List.Nodup.of_cons hnd) hs
        (fun b' hb' => hfresh b' (List.mem_cons_of_mem b hb'))
      simp only [runAll, hstep]
      refine ⟨by simp [l1], ?_, ?_, ?_, ?_⟩
      · rw [List.filter_cons_of_neg (by decide)]
        simp only [List.length_cons]
        omega
      · rw [List.filter_cons_of_pos (by decide)]
        simp only [List.length_cons]
        omega
      · intro r hr
        rcases List.mem_cons.mp hr with hr | hr
        · exact Or.inr hr
        · exact l4 r hr
      · simp only [List.length_cons]
        rw [l5]
        congr 1
        omega
    · have hnk : (1 : Int) ≤ (k : Int) := by omega
      have hstep := attemptOnce_of_success cfg b now s hw' hb (k : Int) hs hnk
      have hstock' :
          ({ stock := .val ((k : Int) - 1),
             kv := fun x => if x = userKey b then some (orderIdOf now b)
                            else s.kv x,
             orders := ⟨b, now, orderIdOf now b⟩ :: s.orders } : Store).stock
            = .val ((k - 1 : Nat) : Int) := by
        have hcast : ((k : Int) - 1) = ((k - 1 : Nat) : Int) := by omega
        simp [hcast]
      have hfresh' : ∀ b' ∈ rest,
          ({ stock := .val ((k : Int) - 1),
             kv := fun x => if x = userKey b then some (orderIdOf now b)
                            else s.kv x,
             orders := ⟨b, now, orderIdOf now b⟩ :: s.orders } : Store).kv
            (userKey b') = none := by
        intro b' hb'
        have hbne : b' ≠ b := by
          intro e
          subst e
          exact (List.nodup_cons.mp hnd).1 hb'
        have hkne : userKey b' ≠ userKey b := fun e => hbne (userKey_inj e)
        simp [hkne, hfresh b' (List.mem_cons_of_mem b hb')]
      obtain ⟨l1, l2, l3, l4, l5⟩ := ih _ (k - 1) (List.Nodup.of_cons hnd)
        hstock' hfresh'
      simp only [runAll, hstep]
      refine ⟨by simp [l1], ?_, ?_, ?_, ?_⟩
      · rw [List.filter_cons_of_pos rfl]
        simp only [List.length_cons]
        omega
      · rw [List.filter_cons_of_neg (by simp [isSoldOut])]
        simp only [List.length_cons]
        omega
      · intro r hr
        rcases List.mem_cons.mp hr with hr | hr
        · subst hr
          exact Or.inl rfl
        · exact l4 r hr
      · simp only [List.length_cons]
        rw [l5]
        congr 1
        omega

/-- C1 — No oversell (serialized model): the WATCH/MULTI/EXEC conditional
commit admits at most one winner per stock value, so N concurrent `reserve`
calls with pairwise-distinct fresh buyers against stock S are equivalent to
some serial order of committed attempts; in every such order exactly
`min(S,N)` calls return `Reserved`, the other `N − min(S,N)` return
`SoldOut`, no other outcome appears, and the final stock counter is 0 when
`S ≤ N` and `S − N` otherwise. -/
theorem no_oversell_serialized (cfg : SaleConfig) (now : Int) (S : Nat)
    (buyers : List String) (hw : cfg.startsAt ≤ now ∧ now ≤ cfg.endsAt)
    (hnd : buyers.Nodup) :
    (runAll cfg now buyers (initStore S)).1.length = buyers.length ∧
    ((runAll cfg now buyers (initStore S)).1.filter isPurchased).length =
      min S buyers.length ∧
    ((runAll cfg now buyers (initStore S)).1.filter isSoldOut).length =
      buyers.length - min S buyers.length ∧
    (∀ r ∈ (runAll cfg now buyers (initStore S)).1,
      isPurchased r = true ∨ r = .soldOut) ∧
    (runAll cfg now buyers (initStore S)).2.stock =
      .val (if S ≤ buyers.length then 0
            else (S : Int) - (buyers.length : Nat)) := by
  obtain ⟨l1, l2, l3, l4, l5⟩ := runAll_stats cfg now hw buyers (initStore S)
    S hnd rfl (fun _ _ => rfl)
  refine ⟨l1, l2, l3, l4, ?_⟩
  rw [l5]
  congr 1
  split <;> omega

/-- C1 witness: stock 1, window active, three distinct buyers — one
`Reserved`, two `SoldOut`, final stock 0. -/
theorem no_oversell_serialized_witness :
    ((10 : Int) ≤ 15 ∧ (15 : Int) ≤ 20) ∧
    (["abc", "bcd", "cde"] : List String).Nodup ∧
    ((runAll ⟨"PRD-001", "d", 10, 20, 1⟩ 15 ["abc", "bcd", "cde"]
        (initStore 1)).1.length = (["abc", "bcd", "cde"] : List String).length ∧
     ((runAll ⟨"PRD-001", "d", 10, 20, 1⟩ 15 ["abc", "bcd", "cde"]
        (initStore 1)).1.filter isPurchased).length =
       min 1 (["abc", "bcd", "cde"] : List String).length ∧
     ((runAll ⟨"PRD-001", "d", 10, 20, 1⟩ 15 ["abc", "bcd", "cde"]
        (initStore 1)).1.filter isSoldOut).length =
       (["abc", "bcd", "cde"] : List String).length -
         min 1 (["abc", "bcd", "cde"] : List String).length ∧
     (∀ r ∈ (runAll ⟨"PRD-001", "d", 10, 20, 1⟩ 15 ["abc", "bcd", "cde"]
        (initStore 1)).1, isPurchased r = true ∨ r = .soldOut) ∧
     (runAll ⟨"PRD-001", "d", 10, 20, 1⟩ 15 ["abc", "bcd", "cde"]
        (initStore 1)).2.stock =
       .val (if 1 ≤ (["abc", "bcd", "cde"] : List String).length then 0
             else ((1 : Nat) : Int) -
               ((["abc", "bcd", "cde"] : List String).length : Nat))) :=
  ⟨⟨by decide, by decide⟩, by decide,
    no_oversell_serialized ⟨"PRD-001", "d", 10, 20, 1⟩ 15 1
      ["abc", "bcd", "cde"] ⟨by decide, by decide⟩ (by decide)⟩

end FlashSale
